import Mathlib

/-!
Shallow embedding of `pkg/geoip/geoip.go` (shnode/nezha-diff): a resolver
that maps an IP address to a lowercase two-letter country (or continent)
code, trying a remote HTTP service first and falling back to a local
maxminddb database (external file preferred over an embedded copy).

Effects are made explicit: the HTTP tier takes the response the network
would deliver as a parameter, the filesystem and the embedded database are
a `World` value, and the lazily-initialized package-level variables
(`dbOnce`, `dbReader`, `dbInitErr`) are a `DBState` threaded through the
functions.  Filesystem accesses and outbound HTTP requests are counted so
that "no further filesystem access" and "without making a network call"
become provable statements.
-/

namespace NezhaGeoip

/-- Go errors as observed by this module, modelled by their message strings
(`errors.New(msg)` and the messages of errors received from libraries). -/
abbrev GoError := String

/-- Go `len` applied to a string counts UTF-8 bytes, not characters. -/
def golen (s : String) : Nat := s.utf8ByteSize

/-- Go `unicode.IsSpace`: the set of code points trimmed by
`strings.TrimSpace` (ASCII white space plus the Unicode White_Space class). -/
def goIsSpace (c : Char) : Bool :=
  c.toNat = 9 || c.toNat = 10 || c.toNat = 11 || c.toNat = 12 || c.toNat = 13 ||
  c.toNat = 32 || c.toNat = 0x85 || c.toNat = 0xA0 || c.toNat = 0x1680 ||
  (0x2000 ≤ c.toNat && c.toNat ≤ 0x200A) || c.toNat = 0x2028 || c.toNat = 0x2029 ||
  c.toNat = 0x202F || c.toNat = 0x205F || c.toNat = 0x3000

/-- Go `strings.TrimSpace`: drop leading and trailing white space. -/
def goTrimSpace (s : String) : String :=
  ⟨((s.data.dropWhile goIsSpace).reverse.dropWhile goIsSpace).reverse⟩

/-- Go `strings.ToLower`, character by character.  `Char.toLower` lowercases
exactly the ASCII letters; Go additionally lowercases non-ASCII letters, but
the two agree on every ASCII string, and every non-ASCII character used in
this development is a fixed point of both. -/
def goToLower (s : String) : String := ⟨s.data.map Char.toLower⟩

/-- The struct `IPInfo` of geoip.go: one decoded maxminddb record, covering
both schema variants (embedded `geoip.db` stores the code in
`country`/`continent`; the external `ipinfo_lite.mmdb` stores it in
`country_code`/`continent_code`).  A field absent from the record decodes to
the empty string. -/
structure IPInfo where
  CountryCode : String
  Country : String
  CountryName : String
  ContinentCode : String
  Continent : String
  ContinentName : String
deriving DecidableEq

/-- The zero value of `IPInfo`: what `var record IPInfo` holds before (and,
for an address with no record, after) `Reader.Lookup`. -/
def IPInfo.zero : IPInfo := ⟨"", "", "", "", "", ""⟩

/-- The country/continent priority block at the end of `Lookup`
(geoip.go lines 144-162), factored out: `country_code` first, then a
two-byte `country`, then `continent_code`, then a two-byte `continent`,
else the error `IP not found`. -/
def extractCode (r : IPInfo) : Except GoError String :=
  if r.CountryCode ≠ "" then .ok (goToLower r.CountryCode)
  else if r.Country ≠ "" ∧ golen r.Country = 2 then .ok (goToLower r.Country)
  else if r.ContinentCode ≠ "" then .ok (goToLower r.ContinentCode)
  else if r.Continent ≠ "" ∧ golen r.Continent = 2 then .ok (goToLower r.Continent)
  else .error "IP not found"

/-- The spec's extraction-priority table (section 4.3), parameterized by the
notion of string length used in rules 2 and 4: each entry is a guard paired
with the field it would return. -/
def specRules (chars : String → Nat) (r : IPInfo) : List (Bool × String) :=
  [ (decide (r.CountryCode ≠ ""), r.CountryCode),
    (decide (r.Country ≠ "") && decide (chars r.Country = 2), r.Country),
    (decide (r.ContinentCode ≠ ""), r.ContinentCode),
    (decide (r.Continent ≠ "") && decide (chars r.Continent = 2), r.Continent) ]

/-- First-match-wins reading of the spec's priority table: the first rule
whose guard holds yields its field lowercased; otherwise the lookup fails
with `IP not found`. -/
def specExtract (chars : String → Nat) (r : IPInfo) : Except GoError String :=
  match (specRules chars r).find? (fun p => p.1) with
  | some p => .ok (goToLower p.2)
  | none => .error "IP not found"

/-- Outcome of the one HTTP GET issued by `fetchIPInfoCountry`: either the
transport fails (`httpClient.Get` returns an error, which includes the 2s
timeout), or a response arrives with a status code and a body whose read
(`io.ReadAll`) may itself fail. -/
inductive HTTPResult where
  | netErr (e : GoError)
  | response (statusCode : Nat) (body : Except GoError String)

/-- `fetchIPInfoCountry` of geoip.go, with the network's answer passed in:
reject transport errors, then any status other than 200, then body-read
errors, then any trimmed body whose byte length is not 2; on success return
the trimmed body lowercased. -/
def fetchIPInfoCountry (resp : HTTPResult) : Except GoError String :=
  match resp with
  | .netErr e => .error e
  | .response statusCode body =>
    if statusCode ≠ 200 then .error "ipinfo status not OK"
    else
      match body with
      | .error e => .error e
      | .ok raw =>
        let code := goTrimSpace raw
        if golen code ≠ 2 then .error "invalid country code from ipinfo"
        else .ok (goToLower code)

/-- `net.IP` as this module distinguishes it: `none` is the nil IP, `some s`
a non-nil address whose textual form (`ip.String()`) is `s`. -/
abbrev IP := Option String

/-- `lookupFromIPInfo` of geoip.go: a nil IP fails immediately with the
error `nil ip`; otherwise one GET to `https://ipinfo.io/<ip>/country` is
issued and handed to `fetchIPInfoCountry`.  The second component counts the
outbound HTTP requests made by the call. -/
def lookupFromIPInfo (ip : IP) (resp : HTTPResult) : Except GoError String × Nat :=
  match ip with
  | none => (.error "nil ip", 0)
  | some _ => (fetchIPInfoCountry resp, 1)

/-- Whether the remote tier's answer makes `Lookup` return early: its Go
condition `err == nil && code != ""`. -/
def remoteHit (ip : IP) (resp : HTTPResult) : Bool :=
  match (lookupFromIPInfo ip resp).1 with
  | .ok c => decide (c ≠ "")
  | .error _ => false

/-- How the maxminddb reader answers `Reader.Lookup` for one address.
Modelled from the maxminddb-golang library used by geoip.go (the library is
not part of this repository): `Reader.Lookup(ip, &record)` returns a
non-nil error only for library-level failures (`libErr`); for an address
with no record in the database it returns a NIL error and leaves `record`
at its zero value (`notFound`). -/
inductive DBLookupResult where
  | libErr (e : GoError)
  | found (rec : IPInfo)
  | notFound

/-- An open `maxminddb.Reader`, modelled by how it answers record lookups. -/
structure Reader where
  answer : IP → DBLookupResult

/-- The observable behaviour of `db.Lookup(ip, &record)` as geoip.go uses
it: the returned error, and the value `record` holds afterwards (its zero
value when the address is absent, per the library's contract). -/
def dbLookup (db : Reader) (ip : IP) : Except GoError IPInfo :=
  match db.answer ip with
  | .libErr e => .error e
  | .found rec => .ok rec
  | .notFound => .ok IPInfo.zero

/-- Result of `os.Stat(externalDBPath)`: an error (e.g. the file is
absent), or success telling whether the path is a directory. -/
inductive StatResult where
  | statErr (e : GoError)
  | statOk (isDir : Bool)

/-- The world `initDB` interacts with: what `os.Stat` reports for the fixed
external path, what `maxminddb.Open` on that path would yield, and what
`maxminddb.FromBytes(embeddedDB)` yields for the embedded copy. -/
structure World where
  stat : StatResult
  openExt : Except GoError Reader
  fromBytesEmbedded : Except GoError Reader

/-- The package-level lazy-initialization state of geoip.go: whether
`dbOnce` has fired, and the values of `dbReader` and `dbInitErr`. -/
structure DBState where
  onceDone : Bool
  dbReader : Option Reader
  dbInitErr : Option GoError

/-- The pristine state at process start: `dbOnce` not fired, both package
variables nil. -/
def initState : DBState := ⟨false, none, none⟩

/-- Count of filesystem touches: `os.Stat` calls and `maxminddb.Open` calls
on the external path (`FromBytes` reads memory only). -/
structure FSAccess where
  stats : Nat
  opens : Nat
deriving DecidableEq

/-- The tail of `initDB`: fall back to the embedded `geoip.db`; record the
reader on success and the parse error in `dbInitErr` on failure. -/
def embedFallback (w : World) : DBState :=
  match w.fromBytesEmbedded with
  | .error e => ⟨true, none, some e⟩
  | .ok r => ⟨true, some r, none⟩

/-- `initDB` of geoip.go: stat the external path; if it exists and is not a
directory, try `maxminddb.Open` and keep that reader on success; otherwise
(stat error, directory, or open failure) fall back to the embedded copy.
Returns the state after the one-time initialization and the filesystem
accesses it performed. -/
def initDB (w : World) : DBState × FSAccess :=
  match w.stat with
  | .statOk false =>
    match w.openExt with
    | .ok r => (⟨true, some r, none⟩, ⟨1, 1⟩)
    | .error _ => (embedFallback w, ⟨1, 1⟩)
  | .statOk true => (embedFallback w, ⟨1, 0⟩)
  | .statErr _ => (embedFallback w, ⟨1, 0⟩)

/-- `getDB` of geoip.go: `dbOnce.Do(initDB)` then return
`(dbReader, dbInitErr)`.  Once the state is initialized, the cached pair is
returned with no filesystem access and no state change. -/
def getDB (w : World) (st : DBState) : (Option Reader × Option GoError) × DBState × FSAccess :=
  if st.onceDone then ((st.dbReader, st.dbInitErr), st, ⟨0, 0⟩)
  else
    match initDB w with
    | (st1, fs) => ((st1.dbReader, st1.dbInitErr), st1, fs)

/-- Full outcome of one `Lookup` call: its return value, the package state
it leaves behind, the filesystem accesses of its local tier, and the HTTP
requests of its remote tier. -/
structure LookupOut where
  result : Except GoError String
  state : DBState
  fs : FSAccess
  httpReqs : Nat

/-- What `Lookup` computes from an open reader: propagate a `db.Lookup`
error, else run the extraction priority on the decoded record. -/
def localResult (db : Reader) (ip : IP) : Except GoError String :=
  match dbLookup db ip with
  | .error e => .error e
  | .ok rec => extractCode rec

/-- Everything `Lookup` does after the remote tier declined: `getDB`,
propagate `dbInitErr`, then `db.Lookup` plus extraction.  The `none` reader
branch models the nil-pointer dereference Go would hit if `getDB` ever
returned a nil reader with a nil error; no state produced by `initDB` does.
`reqs` carries the HTTP-request count of the remote attempt. -/
def localLookup (ip : IP) (w : World) (st : DBState) (reqs : Nat) : LookupOut :=
  match getDB w st with
  | ((dbOpt, errOpt), st1, fs) =>
    match errOpt with
    | some e => ⟨.error e, st1, fs, reqs⟩
    | none =>
      match dbOpt with
      | none => ⟨.error "nil reader dereference", st1, fs, reqs⟩
      | some db => ⟨localResult db ip, st1, fs, reqs⟩

/-- `Lookup` of geoip.go: try the remote tier; if it returned a non-empty
code with a nil error, return it at once; otherwise fall through to the
local database tier. -/
def Lookup (ip : IP) (resp : HTTPResult) (w : World) (st : DBState) : LookupOut :=
  match lookupFromIPInfo ip resp with
  | (.ok code, reqs) =>
    if code ≠ "" then ⟨.ok code, st, ⟨0, 0⟩, reqs⟩ else localLookup ip w st reqs
  | (.error _, reqs) => localLookup ip w st reqs

/-- Concrete world whose local tier is irrelevant to the statement using it:
no external file and a corrupt embedded copy. -/
def w0 : World := ⟨.statErr "no such file or directory", .error "unused", .error "unused"⟩

/-- Record whose generic country field holds one non-ASCII character that
occupies two UTF-8 bytes. -/
def recE : IPInfo := ⟨"", "é", "", "", "", ""⟩

/-- Reader answering every address with `recE`. -/
def dbE : Reader := ⟨fun _ => .found recE⟩

/-- Reader with no record for any address. -/
def dbAbsent : Reader := ⟨fun _ => .notFound⟩

/-- Reader answering every address with the zero record. -/
def dbZeroRec : Reader := ⟨fun _ => .found IPInfo.zero⟩

/-- Reader whose records carry a three-letter `country_code`. -/
def dbUSA : Reader := ⟨fun _ => .found ⟨"USA", "", "", "", "", ""⟩⟩

/-- Reader whose records carry the two-letter `country_code` `US`. -/
def dbUS : Reader := ⟨fun _ => .found ⟨"US", "", "", "", "", ""⟩⟩

/-- World where both the external file and the embedded copy fail. -/
def wBadAll : World :=
  ⟨.statErr "stat ipinfo_lite.mmdb: no such file or directory", .error "unused",
   .error "embedded geoip.db corrupt"⟩

/-- World where the external file exists but is corrupt, and the embedded
copy opens as `dbUS`. -/
def wCorrupt : World := ⟨.statOk false, .error "maxminddb: invalid metadata", .ok dbUS⟩

/-- World where the external path is a directory; opening it would even
succeed (`dbUSA`), which lets a theorem show the open is never attempted. -/
def wDir : World := ⟨.statOk true, .ok dbUSA, .ok dbUS⟩

theorem toNat_ofNatAux (n : Nat) (h : n.isValidChar) : (Char.ofNatAux n h).toNat = n := by
  unfold Char.ofNatAux
  simp [Char.toNat, UInt32.toNat]

theorem char_toLower_toNat (c : Char) :
    (Char.toLower c).toNat =
      if 65 ≤ c.toNat ∧ c.toNat ≤ 90 then c.toNat + 32 else c.toNat := by
  unfold Char.toLower
  by_cases h : 65 ≤ c.toNat ∧ c.toNat ≤ 90
  · rw [if_pos h, if_pos ⟨h.1, h.2⟩]
    unfold Char.ofNat
    have hv : (c.toNat + 32).isValidChar := by
      have := h.2
      unfold Nat.isValidChar
      omega
    rw [dif_pos hv]
    exact toNat_ofNatAux _ hv
  · rw [if_neg h, if_neg (fun hc => h ⟨hc.1, hc.2⟩)]

theorem char_toLower_eq_self (c : Char) (h : ¬ (65 ≤ c.toNat ∧ c.toNat ≤ 90)) :
    Char.toLower c = c := by
  unfold Char.toLower
  rw [if_neg (fun hc => h ⟨hc.1, hc.2⟩)]

theorem char_toLower_idem (c : Char) : Char.toLower (Char.toLower c) = Char.toLower c := by
  by_cases h : 65 ≤ c.toNat ∧ c.toNat ≤ 90
  · apply char_toLower_eq_self
    rw [char_toLower_toNat c, if_pos h]
    omega
  · rw [char_toLower_eq_self c h]
    exact char_toLower_eq_self c h

theorem goToLower_idem (s : String) : goToLower (goToLower s) = goToLower s := by
  unfold goToLower
  refine congrArg String.mk ?_
  show (s.data.map Char.toLower).map Char.toLower = s.data.map Char.toLower
  rw [List.map_map]
  exact List.map_congr_left (fun c _ => char_toLower_idem c)

theorem goToLower_eq_empty_iff (s : String) : goToLower s = "" ↔ s = "" := by
  unfold goToLower
  constructor
  · intro h
    have hd : s.data.map Char.toLower = [] := congrArg String.data h
    have : s.data = [] := List.map_eq_nil_iff.mp hd
    show s = ⟨[]⟩
    rw [← this]
  · intro h
    subst h
    rfl

theorem ne_empty_of_golen_two (s : String) (h : golen s = 2) : s ≠ "" := by
  intro he
  subst he
  exact absurd h (by decide)

theorem fetch_ok_iff (resp : HTTPResult) (s : String) :
    fetchIPInfoCountry resp = .ok s ↔
      ∃ b, resp = .response 200 (.ok b) ∧ golen (goTrimSpace b) = 2 ∧
        s = goToLower (goTrimSpace b) := by
  cases resp with
  | netErr e => simp [fetchIPInfoCountry]
  | response statusCode body =>
    by_cases hs : statusCode = 200
    · subst hs
      cases body with
      | error e => simp [fetchIPInfoCountry]
      | ok raw =>
        by_cases hl : golen (goTrimSpace raw) = 2
        · simp [fetchIPInfoCountry, hl, eq_comm]
        · simp [fetchIPInfoCountry, hl]
    · simp [fetchIPInfoCountry, hs]

theorem extractCode_ok (r : IPInfo) (s : String) (h : extractCode r = .ok s) :
    ∃ t, t ≠ "" ∧ s = goToLower t := by
  unfold extractCode at h
  split_ifs at h with h1 h2 h3 h4
  · exact ⟨r.CountryCode, h1, by injection h with h'; exact h'.symm⟩
  · exact ⟨r.Country, h2.1, by injection h with h'; exact h'.symm⟩
  · exact ⟨r.ContinentCode, h3, by injection h with h'; exact h'.symm⟩
  · exact ⟨r.Continent, h4.1, by injection h with h'; exact h'.symm⟩

theorem lookup_hit (ip : IP) (resp : HTTPResult) (w : World) (st : DBState) (c : String)
    (h1 : (lookupFromIPInfo ip resp).1 = .ok c) (h2 : c ≠ "") :
    Lookup ip resp w st = ⟨.ok c, st, ⟨0, 0⟩, (lookupFromIPInfo ip resp).2⟩ := by
  unfold Lookup
  rw [show lookupFromIPInfo ip resp = (Except.ok c, (lookupFromIPInfo ip resp).2) by
    rw [← h1]]
  simp [h2]

theorem lookup_miss (ip : IP) (resp : HTTPResult) (w : World) (st : DBState)
    (h : remoteHit ip resp = false) :
    Lookup ip resp w st = localLookup ip w st (lookupFromIPInfo ip resp).2 := by
  unfold Lookup
  unfold remoteHit at h
  cases h1 : (lookupFromIPInfo ip resp).1 with
  | error e =>
    rw [show lookupFromIPInfo ip resp = (Except.error e, (lookupFromIPInfo ip resp).2) by
      rw [← h1]]
  | ok c =>
    rw [h1] at h
    simp at h
    rw [show lookupFromIPInfo ip resp = (Except.ok c, (lookupFromIPInfo ip resp).2) by
      rw [← h1]]
    simp [h]

theorem getDB_done (w : World) (st : DBState) (h : st.onceDone = true) :
    getDB w st = ((st.dbReader, st.dbInitErr), st, ⟨0, 0⟩) := by
  unfold getDB
  rw [if_pos h]

theorem initDB_done (w : World) : (initDB w).1.onceDone = true := by
  rcases w with ⟨stat, op, emb⟩
  cases stat with
  | statErr e => cases emb <;> rfl
  | statOk isDir =>
    cases isDir
    · cases op with
      | error e => cases emb <;> rfl
      | ok r => rfl
    · cases emb <;> rfl

theorem initDB_err_reader (w : World) (e : GoError)
    (h : (initDB w).1.dbInitErr = some e) : (initDB w).1.dbReader = none := by
  rcases w with ⟨stat, op, emb⟩
  cases stat with
  | statErr e2 => cases emb <;> simp_all [initDB, embedFallback]
  | statOk isDir =>
    cases isDir
    · cases op with
      | error e2 => cases emb <;> simp_all [initDB, embedFallback]
      | ok r => simp_all [initDB]
    · cases emb <;> simp_all [initDB, embedFallback]

theorem remoteHit_true (ip : IP) (resp : HTTPResult) (h : remoteHit ip resp = true) :
    ∃ c, (lookupFromIPInfo ip resp).1 = .ok c ∧ c ≠ "" := by
  unfold remoteHit at h
  cases h1 : (lookupFromIPInfo ip resp).1 with
  | error e => rw [h1] at h; simp at h
  | ok c => rw [h1] at h; simp at h; exact ⟨c, rfl, h⟩

theorem localLookup_err (ip : IP) (w : World) (dbOpt : Option Reader) (e : GoError)
    (reqs : Nat) :
    localLookup ip w ⟨true, dbOpt, some e⟩ reqs =
      ⟨.error e, ⟨true, dbOpt, some e⟩, ⟨0, 0⟩, reqs⟩ := rfl

theorem localLookup_db (ip : IP) (w : World) (db : Reader) (reqs : Nat) :
    localLookup ip w ⟨true, some db, none⟩ reqs =
      ⟨localResult db ip, ⟨true, some db, none⟩, ⟨0, 0⟩, reqs⟩ := rfl

theorem localLookup_ok (ip : IP) (w : World) (st : DBState) (reqs : Nat) (s : String)
    (h : (localLookup ip w st reqs).result = .ok s) :
    ∃ rec, extractCode rec = .ok s := by
  unfold localLookup at h
  rcases hg : getDB w st with ⟨⟨dbOpt, errOpt⟩, st1, fs⟩
  rw [hg] at h
  cases errOpt with
  | some e => simp at h
  | none =>
    cases dbOpt with
    | none => simp at h
    | some db =>
      simp only at h
      unfold localResult at h
      cases hdb : dbLookup db ip with
      | error e => rw [hdb] at h; simp at h
      | ok rec => rw [hdb] at h; exact ⟨rec, h⟩

/-- C1 (amended): for every record found in the active database, the local
extraction follows the spec's priority table with the length tests of rules
2 and 4 read as Go's `len`, i.e. UTF-8 byte length: country_code if
non-empty, else a non-empty two-byte country, else continent_code if
non-empty, else a non-empty two-byte continent, else the error
`IP not found`. -/
theorem claim_C1 (r : IPInfo) : extractCode r = specExtract golen r := by
  unfold extractCode specExtract specRules
  by_cases h1 : r.CountryCode = "" <;>
  by_cases h2 : r.Country = "" <;>
  by_cases h3 : golen r.Country = 2 <;>
  by_cases h4 : r.ContinentCode = "" <;>
  by_cases h5 : r.Continent = "" <;>
  by_cases h6 : golen r.Continent = 2 <;>
  simp [h1, h2, h3, h4, h5, h6, List.find?]

/-- C1 as stated is false: with length read as character count, a record
whose country field is the single two-byte character é matches no rule of
the priority table (it is not exactly 2 characters), yet the code returns
it, because Go's `len` counts bytes. -/
theorem claim_C1_counterexample :
    specExtract String.length recE = .error "IP not found" ∧
    (Lookup (some "203.0.113.7") (.netErr "timeout") w0 ⟨true, some dbE, none⟩).result
      = .ok "é" := by
  exact ⟨rfl, rfl⟩

/-- C2: whenever the remote tier returns a non-empty code with a nil error,
Lookup returns that code at once, leaves the package state untouched,
performs no filesystem access, and this holds for every database state,
including one recording a failed initialization. -/
theorem claim_C2 (ip : IP) (resp : HTTPResult) (w : World) (st : DBState) (c : String)
    (h1 : (lookupFromIPInfo ip resp).1 = .ok c) (h2 : c ≠ "") :
    Lookup ip resp w st = ⟨.ok c, st, ⟨0, 0⟩, (lookupFromIPInfo ip resp).2⟩ :=
  lookup_hit ip resp w st c h1 h2

/-- Witness for C2 at a concrete input: remote answers `US`, the local
database state records a failed initialization, and Lookup still returns
`us` without touching it. -/
theorem claim_C2_witness :
    Lookup (some "8.8.8.8") (.response 200 (.ok "US")) w0 ⟨true, none, some "db init failed"⟩ =
      ⟨.ok "us", ⟨true, none, some "db init failed"⟩, ⟨0, 0⟩, 1⟩ :=
  claim_C2 (some "8.8.8.8") (.response 200 (.ok "US")) w0 ⟨true, none, some "db init failed"⟩
    "us" rfl (by decide)

/-- C3 (amended): with the remote tier failing, an address absent from the
active database makes Lookup fail with the very same generic `IP not found`
error that is returned when a record is found but carries no usable
country/continent field; the code does not produce a distinct
record-not-found error kind, because the maxminddb library reports an
absent address as a nil-error lookup that leaves the record zero-valued. -/
theorem claim_C3 (ip : IP) (resp : HTTPResult) (w : World) (db db2 : Reader)
    (hmiss : remoteHit ip resp = false)
    (habs : db.answer ip = .notFound)
    (hfound : db2.answer ip = .found IPInfo.zero) :
    (Lookup ip resp w ⟨true, some db, none⟩).result = .error "IP not found" ∧
    (Lookup ip resp w ⟨true, some db2, none⟩).result = .error "IP not found" := by
  have hz : extractCode IPInfo.zero = .error "IP not found" := rfl
  constructor
  · rw [lookup_miss _ _ _ _ hmiss, localLookup_db]
    simp [localResult, dbLookup, habs, hz]
  · rw [lookup_miss _ _ _ _ hmiss, localLookup_db]
    simp [localResult, dbLookup, hfound, hz]

/-- C3 as stated is false: the error produced for an address with no record
in the database is identical to the one produced for an address whose
record has no usable field — there is no distinct error kind. -/
theorem claim_C3_counterexample :
    (Lookup (some "198.51.100.9") (.netErr "remote down") w0
        ⟨true, some dbAbsent, none⟩).result =
      (Lookup (some "198.51.100.9") (.netErr "remote down") w0
        ⟨true, some dbZeroRec, none⟩).result ∧
    (Lookup (some "198.51.100.9") (.netErr "remote down") w0
        ⟨true, some dbAbsent, none⟩).result = .error "IP not found" := by
  exact ⟨rfl, rfl⟩

/-- Witness for C3 (amended) at a concrete input. -/
theorem claim_C3_witness :
    (Lookup (some "198.51.100.17") (.netErr "timeout") w0
        ⟨true, some dbAbsent, none⟩).result = .error "IP not found" :=
  (claim_C3 (some "198.51.100.17") (.netErr "timeout") w0 dbAbsent dbZeroRec
    rfl rfl rfl).1

/-- C4 (amended): every successful Lookup returns a non-empty string that
is fixed under lowercasing, and hence never an empty string with a nil
error; the two-letter guarantee of the claim does not hold because the
country_code and continent_code fields are returned without a length
check. -/
theorem claim_C4 (ip : IP) (resp : HTTPResult) (w : World) (st : DBState) (s : String)
    (h : (Lookup ip resp w st).result = .ok s) :
    s ≠ "" ∧ goToLower s = s := by
  have hlow : ∀ t : String, t ≠ "" → (goToLower t ≠ "" ∧ goToLower (goToLower t) = goToLower t) :=
    fun t ht => ⟨fun hc => ht ((goToLower_eq_empty_iff t).mp hc), goToLower_idem t⟩
  cases hh : remoteHit ip resp with
  | false =>
    rw [lookup_miss ip resp w st hh] at h
    obtain ⟨rec, hrec⟩ := localLookup_ok ip w st _ s h
    obtain ⟨t, ht, hs⟩ := extractCode_ok rec s hrec
    subst hs
    exact hlow t ht
  | true =>
    obtain ⟨c, h1, h2⟩ := remoteHit_true ip resp hh
    rw [lookup_hit ip resp w st c h1 h2] at h
    simp only at h
    injection h with h
    subst h
    cases ip with
    | none => simp [lookupFromIPInfo] at h1
    | some a =>
      rw [lookupFromIPInfo] at h1
      obtain ⟨b, _, hlen, hcode⟩ := (fetch_ok_iff resp c).mp h1
      subst hcode
      exact hlow _ (ne_empty_of_golen_two _ hlen)

/-- C4 as stated is false: a record whose country_code field holds `USA`
makes Lookup succeed with the three-character string `usa`. -/
theorem claim_C4_counterexample :
    (Lookup (some "192.0.2.5") (.netErr "remote down") w0
        ⟨true, some dbUSA, none⟩).result = .ok "usa" ∧
    ("usa" : String).length = 3 := by
  exact ⟨rfl, by decide⟩

/-- Witness for C4 (amended) at a concrete input. -/
theorem claim_C4_witness : ("us" : String) ≠ "" ∧ goToLower "us" = "us" :=
  claim_C4 (some "192.0.2.8") (.netErr "remote down") w0 ⟨true, some dbUS, none⟩ "us" rfl

/-- C5 (amended): the remote fetch succeeds exactly when the HTTP response
has status 200, its body reads without error, and Go's `len` of the trimmed
body — its UTF-8 byte length — is exactly 2; on success it returns the
trimmed body lowercased.  Any network error, timeout, other status, read
failure, or trimmed body of a different byte length is a failure. -/
theorem claim_C5 (resp : HTTPResult) :
    (∀ s, fetchIPInfoCountry resp = .ok s →
        ∃ b, resp = .response 200 (.ok b) ∧ golen (goTrimSpace b) = 2 ∧
          s = goToLower (goTrimSpace b)) ∧
    (∀ b, resp = .response 200 (.ok b) → golen (goTrimSpace b) = 2 →
        fetchIPInfoCountry resp = .ok (goToLower (goTrimSpace b))) := by
  constructor
  · intro s h
    exact (fetch_ok_iff resp s).mp h
  · intro b hb hl
    subst hb
    exact (fetch_ok_iff _ _).mpr ⟨b, rfl, hl, rfl⟩

/-- C5 as stated is false: a 200 response whose body is the single
character é — one character, two UTF-8 bytes — succeeds, although the
trimmed body is not two characters long, because Go's `len` counts
bytes. -/
theorem claim_C5_counterexample :
    fetchIPInfoCountry (.response 200 (.ok "é")) = .ok "é" ∧
    (goTrimSpace "é").length = 1 := by
  exact ⟨rfl, by decide⟩

/-- Witness for C5 (amended) at a concrete input: status 200 with body
` US` (a space and two letters) succeeds and returns `us`. -/
theorem claim_C5_witness :
    fetchIPInfoCountry (.response 200 (.ok " US")) = .ok "us" := by
  have h := (claim_C5 (.response 200 (.ok " US"))).2 " US" rfl (by decide)
  exact h.trans rfl

/-- C6: when initialization failed (the state `initDB` produced records an
error), every later `getDB` — under any world, so with no filesystem access
(zero stats, zero opens) and no re-initialization — returns that same
recorded error and leaves the state unchanged, and every later Lookup whose
remote tier does not succeed fails with exactly that error. -/
theorem claim_C6 (w : World) (e : GoError) (hfail : (initDB w).1.dbInitErr = some e) :
    (∀ w2 : World, getDB w2 (initDB w).1 = ((none, some e), (initDB w).1, ⟨0, 0⟩)) ∧
    (∀ (w2 : World) (ip : IP) (resp : HTTPResult), remoteHit ip resp = false →
        Lookup ip resp w2 (initDB w).1 =
          ⟨.error e, (initDB w).1, ⟨0, 0⟩, (lookupFromIPInfo ip resp).2⟩) := by
  have hdone := initDB_done w
  have hrd := initDB_err_reader w e hfail
  have hst : (initDB w).1 = ⟨true, none, some e⟩ := by
    rcases h' : (initDB w).1 with ⟨a, b, c⟩
    rw [h'] at hdone hrd hfail
    simp only at hdone hrd hfail
    rw [hdone, hrd, hfail]
  constructor
  · intro w2
    rw [getDB_done w2 _ hdone, hrd, hfail]
  · intro w2 ip resp hmiss
    rw [lookup_miss _ _ _ _ hmiss, hst, localLookup_err]

/-- Witness for C6 at a concrete input: stat fails, the embedded copy is
corrupt, and a Lookup from the failed state returns the recorded error with
no filesystem access. -/
theorem claim_C6_witness :
    Lookup (some "10.0.0.1") (.netErr "connection refused") wBadAll (initDB wBadAll).1 =
      ⟨.error "embedded geoip.db corrupt", (initDB wBadAll).1, ⟨0, 0⟩, 1⟩ :=
  (claim_C6 wBadAll "embedded geoip.db corrupt" rfl).2 wBadAll (some "10.0.0.1")
    (.netErr "connection refused") rfl

/-- C7: if the external file is absent (stat fails) or present as a regular
file but not openable as a database, initialization falls back to the
embedded copy: the state holds the reader parsed from the embedded bytes
and no error, and local lookups (remote tier failing) are answered from
that embedded reader. -/
theorem claim_C7 (w : World) (r : Reader)
    (hext : (∃ e, w.stat = .statErr e) ∨
            (w.stat = .statOk false ∧ ∃ e, w.openExt = .error e))
    (hemb : w.fromBytesEmbedded = .ok r) :
    (initDB w).1 = ⟨true, some r, none⟩ ∧
    (∀ (ip : IP) (resp : HTTPResult), remoteHit ip resp = false →
        (Lookup ip resp w initState).result = localResult r ip) := by
  have hinit : initDB w = (⟨true, some r, none⟩, (initDB w).2) := by
    rcases hext with ⟨e, hstat⟩ | ⟨hstat, e, hopen⟩
    · simp [initDB, hstat, embedFallback, hemb]
    · simp [initDB, hstat, hopen, embedFallback, hemb]
  refine ⟨by rw [hinit], ?_⟩
  intro ip resp hmiss
  rw [lookup_miss _ _ _ _ hmiss]
  unfold localLookup getDB
  rw [if_neg (by simp [initState]), hinit]

/-- Witness for C7 at a concrete input: the external file exists but is
corrupt, the embedded copy carries a `US` record, and Lookup returns
`us`. -/
theorem claim_C7_witness :
    (Lookup (some "203.0.113.1") (.netErr "remote down") wCorrupt initState).result
      = .ok "us" := by
  have h := (claim_C7 wCorrupt dbUS
    (Or.inr ⟨rfl, "maxminddb: invalid metadata", rfl⟩) rfl).2
    (some "203.0.113.1") (.netErr "remote down") rfl
  exact h.trans rfl

/-- C8: for a nil IP the remote tier fails immediately with the error
`nil ip` and issues zero HTTP requests, and Lookup behaves exactly as its
local tier alone: the nil-ip error never becomes the returned value, which
instead comes from the local database path. -/
theorem claim_C8 (resp : HTTPResult) (w : World) (st : DBState) :
    lookupFromIPInfo none resp = (.error "nil ip", 0) ∧
    Lookup none resp w st = localLookup none w st 0 :=
  ⟨rfl, rfl⟩

/-- C10: when the external path is a directory, `initDB` never calls
`maxminddb.Open` (zero opens), behaves exactly as when the stat itself
fails — the absent-file case — and falls back to the embedded copy. -/
theorem claim_C10 (w : World) (hdir : w.stat = .statOk true) :
    (initDB w).2.opens = 0 ∧
    (∀ e : GoError, initDB w = initDB ⟨.statErr e, w.openExt, w.fromBytesEmbedded⟩) ∧
    (∀ r : Reader, w.fromBytesEmbedded = .ok r → (initDB w).1.dbReader = some r) := by
  rcases w with ⟨stat, op, emb⟩
  simp only at hdir
  subst hdir
  refine ⟨?_, ?_, ?_⟩
  · cases emb <;> rfl
  · intro e
    rfl
  · intro r hr
    simp only at hr
    simp [initDB, embedFallback, hr]

/-- Witness for C10 at a concrete input: the path is a directory, opening
it would even have succeeded, yet zero opens happen and the embedded reader
is installed. -/
theorem claim_C10_witness :
    (initDB wDir).2.opens = 0 ∧ (initDB wDir).1.dbReader = some dbUS :=
  ⟨(claim_C10 wDir rfl).1, (claim_C10 wDir rfl).2.2 dbUS rfl⟩

end NezhaGeoip
